import Mathlib

/-!
Verification of the copyclip gamepad input core against its specification.

The Rust sources under `src/src-tauri/src/` are shallowly embedded below:
pure functions become Lean functions, stateful methods become explicit
state-passing functions (the wall clock is passed as a `Nat` millisecond
argument), machine integers become `Int`/`Nat` (the values involved are far
from the `i32`/`u64` bounds, noted where relevant), `f32` axis arithmetic is
modelled by exact rationals (`ℚ`), and fallible Rust functions returning
`Result<(), String>` become `Except String Unit`.  OS side effects are made
observable as explicit effect lists.
-/

namespace CopyClip

/-! ## types/mode.rs -/

/-- Core gamepad modes (types/mode.rs `GamepadMode`). -/
inductive GamepadMode where
  | normal
  | motion
  | hotkey
deriving DecidableEq, Repr

/-- Input modifier state (types/mode.rs `InputModifier`). -/
inductive InputModifier where
  | none
  | alt
  | ctrl
  | shift
  | altCtrl
  | altShift
  | ctrlShift
  | altCtrlShift
deriving DecidableEq, Repr

/-- Type of input interaction (types/mode.rs `InputType`). -/
inductive InputType where
  | tap
  | hold
  | doubleTap
  | chord
  | longHold
deriving DecidableEq, Repr

/-- Mode state tracking (types/mode.rs `ModeState`). -/
structure ModeState where
  current : GamepadMode
  previous : GamepadMode
  transitioning : Bool
  activated_at : Nat
deriving DecidableEq, Repr

/-- `impl Default for ModeState` (types/mode.rs). -/
def ModeState.default : ModeState :=
  { current := .normal, previous := .normal, transitioning := false, activated_at := 0 }

/-! ## gamepad.rs -/

/-- Standard gamepad button indices (gamepad.rs `GamepadButtonIndex`).
The source enum also carries trailing `A` and `B` variants used only by unit
tests; they are kept for fidelity. -/
inductive GamepadButtonIndex where
  | south
  | east
  | west
  | north
  | lb
  | rb
  | lt
  | rt
  | selectButton
  | startButton
  | leftStick
  | rightStick
  | guide
  | dpadUp
  | dpadDown
  | dpadLeft
  | dpadRight
  | a
  | b
deriving DecidableEq, Repr

/-- Standard gamepad axis indices (gamepad.rs `GamepadAxisIndex`). -/
inductive GamepadAxisIndex where
  | leftStickX
  | leftStickY
  | rightStickX
  | rightStickY
deriving DecidableEq, Repr

/-- Scroll configuration (gamepad.rs `ScrollSettings`); `f32` speeds as `ℚ`. -/
structure ScrollSettings where
  enabled : Bool
  vertical_speed : ℚ
  horizontal_speed : ℚ
  reverse_vertical : Bool
  reverse_horizontal : Bool
deriving DecidableEq, Repr

/-- `impl Default for ScrollSettings` (gamepad.rs). -/
def ScrollSettings.default : ScrollSettings :=
  { enabled := true, vertical_speed := 3/2, horizontal_speed := 3/2,
    reverse_vertical := false, reverse_horizontal := false }

/-- Feature flags (gamepad.rs `GamepadFeatures`). -/
structure GamepadFeatures where
  mouse_control : Bool
  keyboard_emulation : Bool
  vibration : Bool
  adaptive_triggers : Bool
  scroll_control : Bool
deriving DecidableEq, Repr

/-- `impl Default for GamepadFeatures` (gamepad.rs). -/
def GamepadFeatures.default : GamepadFeatures :=
  { mouse_control := true, keyboard_emulation := false, vibration := true,
    adaptive_triggers := false, scroll_control := true }

/-- Keyboard key mapping (gamepad.rs `KeyMapping`). -/
structure KeyMapping where
  single : Option String
  combination : Option (List String)
deriving DecidableEq, Repr

/-- D-Pad button mapping (gamepad.rs `DPadMapping`). -/
structure DPadMapping where
  up : KeyMapping
  down : KeyMapping
  left : KeyMapping
  right : KeyMapping
deriving DecidableEq, Repr

/-- `impl Default for DPadMapping` (gamepad.rs). -/
def DPadMapping.default : DPadMapping :=
  { up := { single := none, combination := some ["Page", "Up"] },
    down := { single := none, combination := some ["Page", "Down"] },
    left := { single := none, combination := some ["Cmd", "["] },
    right := { single := none, combination := some ["Cmd", "]"] } }

/-- Gamepad profile (gamepad.rs `GamepadProfile`); the `f32` tunables are
modelled as exact rationals, and the two `HashMap` fields as association
lists. -/
structure GamepadProfile where
  name : String
  description : String
  sensitivity : ℚ
  dead_zone : ℚ
  acceleration : ℚ
  button_map : List (String × GamepadButtonIndex)
  axis_map : List (String × GamepadAxisIndex)
  enabled_features : GamepadFeatures
  scroll_settings : ScrollSettings
  dpad_mapping : DPadMapping
deriving DecidableEq, Repr

/-- `impl Default for GamepadProfile` (gamepad.rs lines 265-280):
sensitivity 1.0, dead_zone 0.1, acceleration 1.0. -/
def GamepadProfile.default : GamepadProfile :=
  { name := "Default", description := "Default gamepad profile",
    sensitivity := 1, dead_zone := 1/10, acceleration := 1,
    button_map := [], axis_map := [],
    enabled_features := GamepadFeatures.default,
    scroll_settings := ScrollSettings.default,
    dpad_mapping := DPadMapping.default }

/-! ## types/action.rs -/

/-- Window snap positions (types/action.rs `WindowPosition`). -/
inductive WindowPosition where
  | top
  | bottom
  | left
  | right
  | topLeft
  | topRight
  | bottomLeft
  | bottomRight
  | center
  | maximize
deriving DecidableEq, Repr

/-- Closed action sum type (types/action.rs `Action`).  The `i32` payloads
become `Int`. -/
inductive Action where
  | volumeUp (amount : Int)
  | volumeDown (amount : Int)
  | brightnessUp (amount : Int)
  | brightnessDown (amount : Int)
  | screenshot
  | screenRecording (start : Bool)
  | appLauncher
  | appPrevious
  | appNext
  | appSwitcher
  | windowSnap (position : WindowPosition)
  | windowCycle
  | mouseMove (dx dy : Int)
  | mousePosition (x y : Int)
  | mouseClick
  | mouseRightClick
  | mouseMiddleClick
  | mouseDoubleClick
  | mouseScroll (vertical horizontal : Int)
  | keyPress (key : String)
  | keyCombo (keys : List String)
  | textInput (text : String)
  | mediaPlayPause
  | mediaNext
  | mediaPrevious
  | mediaStop
  | browserBack
  | browserForward
  | browserReload
  | browserNewTab
  | browserCloseTab
  | browserNextTab
  | browserPrevTab
  | browserFind
  | switchMode (mode : GamepadMode)
  | noOp
deriving DecidableEq, Repr

/-- `Action::is_mode_switch` (types/action.rs). -/
def Action.is_mode_switch : Action → Bool
  | .switchMode _ => true
  | _ => false

/-! ## types/binding.rs -/

/-- A single gamepad button (types/binding.rs `GamepadButton`). -/
structure GamepadButton where
  index : GamepadButtonIndex
deriving DecidableEq, Repr

/-- Input pattern for matching button presses (types/binding.rs
`InputPattern`); `timeout_ms : u32` becomes `Nat`. -/
inductive InputPattern where
  | singleButton (button : GamepadButton) (input_type : InputType)
  | modifiedButton (button : GamepadButton) (modifier : InputModifier) (input_type : InputType)
  | chord (buttons : List GamepadButton)
  | sequence (first second : GamepadButton) (timeout_ms : Nat)
deriving DecidableEq, Repr

/-- A binding of input pattern to action (types/binding.rs `KeyBinding`);
`priority : u8` becomes `Nat` (claims never exercise the 255 bound). -/
structure KeyBinding where
  pattern : InputPattern
  action : Action
  priority : Nat
  enabled : Bool
  description : Option String
  mode : GamepadMode
deriving DecidableEq, Repr

/-- Rendering of `GamepadButtonIndex` as produced by the derived `Debug`
formatter (used by `KeyBindingRegistry::pattern_key`). -/
def GamepadButtonIndex.debugStr : GamepadButtonIndex → String
  | .south => "South"
  | .east => "East"
  | .west => "West"
  | .north => "North"
  | .lb => "LB"
  | .rb => "RB"
  | .lt => "LT"
  | .rt => "RT"
  | .selectButton => "Select"
  | .startButton => "Start"
  | .leftStick => "LeftStick"
  | .rightStick => "RightStick"
  | .guide => "Guide"
  | .dpadUp => "DPadUp"
  | .dpadDown => "DPadDown"
  | .dpadLeft => "DPadLeft"
  | .dpadRight => "DPadRight"
  | .a => "A"
  | .b => "B"

/-- Derived `Debug` rendering of `GamepadButton` (a one-field struct). -/
def GamepadButton.debugStr (b : GamepadButton) : String :=
  "GamepadButton \x7b index: " ++ b.index.debugStr ++ " \x7d"

/-- Derived `Debug` rendering of `InputType`. -/
def InputType.debugStr : InputType → String
  | .tap => "Tap"
  | .hold => "Hold"
  | .doubleTap => "DoubleTap"
  | .chord => "Chord"
  | .longHold => "LongHold"

/-- Derived `Debug` rendering of `InputModifier`. -/
def InputModifier.debugStr : InputModifier → String
  | .none => "None"
  | .alt => "Alt"
  | .ctrl => "Ctrl"
  | .shift => "Shift"
  | .altCtrl => "AltCtrl"
  | .altShift => "AltShift"
  | .ctrlShift => "CtrlShift"
  | .altCtrlShift => "AltCtrlShift"

/-- `KeyBindingRegistry::pattern_key` (types/binding.rs lines 194-197):
the HashMap key is `format!("{pattern:?}")`, i.e. the derived `Debug`
rendering of the whole pattern.  In particular a `Chord`'s `Vec` is rendered
in its listed order: nothing sorts the buttons. -/
def pattern_key : InputPattern → String
  | .singleButton b t =>
      "SingleButton \x7b button: " ++ b.debugStr ++ ", input_type: " ++ t.debugStr ++ " \x7d"
  | .modifiedButton b m t =>
      "ModifiedButton \x7b button: " ++ b.debugStr ++ ", modifier: " ++ m.debugStr ++
        ", input_type: " ++ t.debugStr ++ " \x7d"
  | .chord buttons =>
      "Chord \x7b buttons: [" ++ String.intercalate ", " (buttons.map GamepadButton.debugStr) ++
        "] \x7d"
  | .sequence f s timeout =>
      "Sequence \x7b first: " ++ f.debugStr ++ ", second: " ++ s.debugStr ++
        ", timeout_ms: " ++ toString timeout ++ " \x7d"

/-- Registry of keybindings for a mode (types/binding.rs
`KeyBindingRegistry`): a map from `pattern_key` strings to bindings.  The
Rust `HashMap<String, KeyBinding>` is modelled as an association list whose
insert replaces any entry with an equal key. -/
structure KeyBindingRegistry where
  bindings : List (String × KeyBinding)
deriving DecidableEq, Repr

/-- `KeyBindingRegistry::new`. -/
def KeyBindingRegistry.new : KeyBindingRegistry := { bindings := [] }

/-- Lookup of a key in the association-list model of the `HashMap`. -/
def lookupKey : List (String × KeyBinding) → String → Option KeyBinding
  | [], _ => none
  | e :: rest, k => if e.1 = k then some e.2 else lookupKey rest k

/-- Removal of a key in the association-list model of the `HashMap`. -/
def removeKey : List (String × KeyBinding) → String → List (String × KeyBinding)
  | [], _ => []
  | e :: rest, k => if e.1 = k then removeKey rest k else e :: removeKey rest k

/-- `KeyBindingRegistry::add_binding`: `self.bindings.insert(key, binding)` —
a `HashMap` insert overwrites the entry with an equal key. -/
def KeyBindingRegistry.add_binding (reg : KeyBindingRegistry) (binding : KeyBinding) :
    KeyBindingRegistry :=
  let key := pattern_key binding.pattern
  { bindings := (key, binding) :: removeKey reg.bindings key }

/-- `KeyBindingRegistry::get_binding`: lookup by `pattern_key`. -/
def KeyBindingRegistry.get_binding (reg : KeyBindingRegistry) (pattern : InputPattern) :
    Option KeyBinding :=
  lookupKey reg.bindings (pattern_key pattern)

/-- `KeyBindingRegistry::remove_binding`: remove by `pattern_key`, returning
the removed binding. -/
def KeyBindingRegistry.remove_binding (reg : KeyBindingRegistry) (pattern : InputPattern) :
    Option KeyBinding × KeyBindingRegistry :=
  let key := pattern_key pattern
  (lookupKey reg.bindings key, { bindings := removeKey reg.bindings key })

/-- Configuration of button timing thresholds (types/binding.rs
`InputTiming`). -/
structure InputTiming where
  tap_threshold_ms : Nat
  double_tap_window_ms : Nat
  long_hold_threshold_ms : Nat
  sequence_timeout_ms : Nat
  chord_window_ms : Nat
deriving DecidableEq, Repr

/-- `impl Default for InputTiming` (types/binding.rs lines 219-229). -/
def InputTiming.default : InputTiming :=
  { tap_threshold_ms := 150, double_tap_window_ms := 300, long_hold_threshold_ms := 500,
    sequence_timeout_ms := 2000, chord_window_ms := 100 }

/-! ## modes/manager.rs -/

/-- Mode manager (modes/manager.rs `GamepadModeManager`).  The wall clock
(`current_time_ms`, a `u64` millisecond count) is passed explicitly as `now`
to the operations. -/
structure GamepadModeManager where
  state : ModeState
  last_switch_time : Nat
  min_switch_interval : Nat
deriving DecidableEq, Repr

/-- `GamepadModeManager::new`: NORMAL mode, 50 ms debounce. -/
def GamepadModeManager.new : GamepadModeManager :=
  { state := ModeState.default, last_switch_time := 0, min_switch_interval := 50 }

/-- `GamepadModeManager::switch_mode` (modes/manager.rs lines 45-71).
Checks, in source order: the debounce `now - last_switch_time <
min_switch_interval`, then `new_mode == current`.  On accept it writes
previous/current/activated_at/transitioning and `last_switch_time`.
Timestamps are monotone in the program, so the truncating `Nat` subtraction
agrees with the source's `u64` subtraction whenever `last_switch_time ≤ now`
(the hypothesis carried by the theorems below). -/
def GamepadModeManager.switch_mode (mgr : GamepadModeManager) (now : Nat)
    (new_mode : GamepadMode) : Bool × GamepadModeManager :=
  if now - mgr.last_switch_time < mgr.min_switch_interval then
    (false, mgr)
  else if new_mode = mgr.state.current then
    (false, mgr)
  else
    (true,
     { mgr with
        state := { current := new_mode, previous := mgr.state.current,
                   activated_at := now, transitioning := true },
        last_switch_time := now })

/-- `GamepadModeManager::revert_mode` (modes/manager.rs lines 74-80). -/
def GamepadModeManager.revert_mode (mgr : GamepadModeManager) (now : Nat) :
    Bool × GamepadModeManager :=
  if mgr.state.previous ≠ mgr.state.current then
    mgr.switch_mode now mgr.state.previous
  else
    (false, mgr)

/-- `GamepadModeManager::reset_to_normal` (modes/manager.rs lines 83-85):
delegates to `switch_mode(Normal)`, discarding the boolean. -/
def GamepadModeManager.reset_to_normal (mgr : GamepadModeManager) (now : Nat) :
    GamepadModeManager :=
  (mgr.switch_mode now .normal).2

/-! ## gamepad_manager.rs: the per-tick input translation

`GamepadManager::process_gamepad_input` runs once per 16 ms tick.  Its
continuous-stick phase reads the two sticks of the first gamepad and its
button phase performs rising-edge binding lookup.  The fragments below are
the per-tick translations of those code paths. -/

/-- Rust `expr as i32` on a float value: truncation toward zero.  The stick
products here have magnitude at most 10, far from the `i32` saturation
bounds. -/
def rustTruncToInt (q : ℚ) : Int :=
  if 0 ≤ q then ⌊q⌋ else ⌈q⌉

/-- Left-stick cursor translation (gamepad_manager.rs lines 461-474): if
`|x| > 0.05 || |y| > 0.05` then `dx = (x*10.0) as i32`,
`dy = -((y*10.0) as i32)` are sent to `enigo.mouse_move_relative`; otherwise
nothing is emitted.  The profile is never consulted here: no sensitivity, no
acceleration, and no profile dead_zone enter the computation.  Axis values
(`f32` in the source) are modelled as exact rationals; at every boundary
relevant to the claims the `f32` and exact results agree. -/
def tickCursorDelta (stick_x stick_y : ℚ) : Option (Int × Int) :=
  if 1/20 < |stick_x| ∨ 1/20 < |stick_y| then
    some (rustTruncToInt (stick_x * 10), -(rustTruncToInt (stick_y * 10)))
  else
    none

/-- Right-stick scroll translation (gamepad_manager.rs lines 477-488): if
`|x| > 0.05 || |y| > 0.05` then `(vertical, horizontal) =
((y*10.0) as i32, (x*10.0) as i32)` is passed to `scroll::scroll`; otherwise
nothing is emitted.  No profile scroll speed or reverse flag is applied. -/
def tickScrollDelta (stick_x_right stick_y_right : ℚ) : Option (Int × Int) :=
  if 1/20 < |stick_x_right| ∨ 1/20 < |stick_y_right| then
    some (rustTruncToInt (stick_y_right * 10), rustTruncToInt (stick_x_right * 10))
  else
    none

/-- Per-button, per-tick edge handling of the keybinding phase
(gamepad_manager.rs lines 566-632).  The loop body first runs the
mode-switch skip check of lines 567-573: when the current mode is not
Normal and RB or LB is held and the button is North, it `continue`s —
no lookup is performed and the `button_state` entry is not updated.
Otherwise, on a rising edge (`pressed ∧ ¬was pressed`) it builds the
pattern `SingleButton { button, input_type: Tap }` — unconditionally
`Tap`; no press duration is measured anywhere — and looks it up in the
current mode's registry, then stores the current pressed state.  Returns
the binding found (if any) together with the stored button state after
the iteration (unchanged, i.e. `button_was_pressed`, in the skip
case). -/
def processButtonTick (bindings : KeyBindingRegistry) (current_mode : GamepadMode)
    (rb_pressed lb_pressed : Bool) (button : GamepadButtonIndex)
    (button_pressed button_was_pressed : Bool) : Option KeyBinding × Bool :=
  if current_mode ≠ GamepadMode.normal ∧
      ((rb_pressed ∧ button = GamepadButtonIndex.north) ∨
        (lb_pressed ∧ button = GamepadButtonIndex.north)) then
    (none, button_was_pressed)
  else if button_pressed ∧ ¬button_was_pressed then
    (bindings.get_binding (InputPattern.singleButton { index := button } InputType.tap),
     button_pressed)
  else
    (none, button_pressed)

/-- Classification demanded by the specification sentence behind C1 (spec
§4.E / §8), stated on the spec's own words for comparison with the code:
Tap iff `d ≤ tap_threshold`, LongHold iff `d ≥ long_hold_threshold`, Hold
otherwise.  This definition follows the spec, not the source; the source has
no duration-based classification. -/
def specClassifyDuration (timing : InputTiming) (d : Nat) : InputType :=
  if d ≤ timing.tap_threshold_ms then .tap
  else if timing.long_hold_threshold_ms ≤ d then .longHold
  else .hold

/-! ## actions: the executor and the emitter surface

`actions/executor.rs::execute_action` performs a single dispatch on the
`Action` value; every branch makes at most one call into the emitter layer
(`actions/system.rs`, `actions/app.rs`, `actions/mouse.rs`,
`actions/keyboard.rs`).  Those emitter functions are abstracted by their
observable call (an `EmitterCall` value) and an environment assigning each
call its `Result<(), String>` outcome; the executor's own control flow —
which call it makes and what it does with the outcome — is translated
branch by branch. -/

/-- One call from the executor into the emitter layer, carrying exactly the
arguments the source passes. -/
inductive EmitterCall where
  | setVolume (level : Int)
  | setBrightness (level : Int)
  | takeScreenshot
  | playPauseMedia
  | openAppLauncher
  | switchToPreviousApp
  | switchToNextApp
  | showAppSwitcher
  | moveCursor (dx dy : Int)
  | setCursorPosition (x y : Int)
  | leftClick
  | rightClick
  | middleClick
  | doubleClick
  | mouseScrollCall (vertical horizontal : Int)
  | pressKey (key : String)
  | pressKeyCombination (keys : List String)
  | typeText (text : String)
deriving DecidableEq, Repr

/-- Environment giving each emitter call its outcome. -/
def Emitter : Type := EmitterCall → Except String Unit

/-- `execute_action` (actions/executor.rs lines 8-108), branch by branch.
The returned pair is (the `Result` the function returns, the emitter calls
it made).  Note the three plain media-key branches: they invoke
`press_key(...)` but discard its result via `.ok()` and return `Ok(())`. -/
def execute_action (em : Emitter) : Action → Except String Unit × List EmitterCall
  | .volumeUp amount => (em (.setVolume amount), [.setVolume amount])
  | .volumeDown amount => (em (.setVolume (-amount)), [.setVolume (-amount)])
  | .brightnessUp amount => (em (.setBrightness amount), [.setBrightness amount])
  | .brightnessDown amount => (em (.setBrightness (-amount)), [.setBrightness (-amount)])
  | .screenshot => (em .takeScreenshot, [.takeScreenshot])
  | .screenRecording _ => (Except.ok (), [])
  | .appLauncher => (em .openAppLauncher, [.openAppLauncher])
  | .appPrevious => (em .switchToPreviousApp, [.switchToPreviousApp])
  | .appNext => (em .switchToNextApp, [.switchToNextApp])
  | .appSwitcher => (em .showAppSwitcher, [.showAppSwitcher])
  | .windowSnap _ => (Except.ok (), [])
  | .windowCycle => (Except.ok (), [])
  | .mouseMove dx dy => (em (.moveCursor dx dy), [.moveCursor dx dy])
  | .mousePosition x y => (em (.setCursorPosition x y), [.setCursorPosition x y])
  | .mouseClick => (em .leftClick, [.leftClick])
  | .mouseRightClick => (em .rightClick, [.rightClick])
  | .mouseMiddleClick => (em .middleClick, [.middleClick])
  | .mouseDoubleClick => (em .doubleClick, [.doubleClick])
  | .mouseScroll v h => (em (.mouseScrollCall v h), [.mouseScrollCall v h])
  | .keyPress key => (em (.pressKey key), [.pressKey key])
  | .keyCombo keys => (em (.pressKeyCombination keys), [.pressKeyCombination keys])
  | .textInput text => (em (.typeText text), [.typeText text])
  | .mediaPlayPause => (em .playPauseMedia, [.playPauseMedia])
  | .mediaNext => (Except.ok (), [.pressKey "MediaNext"])
  | .mediaPrevious => (Except.ok (), [.pressKey "MediaPrevious"])
  | .mediaStop => (Except.ok (), [.pressKey "MediaStop"])
  | .browserBack => (em (.pressKeyCombination ["Alt", "Left"]), [.pressKeyCombination ["Alt", "Left"]])
  | .browserForward => (em (.pressKeyCombination ["Alt", "Right"]), [.pressKeyCombination ["Alt", "Right"]])
  | .browserReload => (em (.pressKey "F5"), [.pressKey "F5"])
  | .browserNewTab => (em (.pressKeyCombination ["Control", "t"]), [.pressKeyCombination ["Control", "t"]])
  | .browserCloseTab => (em (.pressKeyCombination ["Control", "w"]), [.pressKeyCombination ["Control", "w"]])
  | .browserNextTab => (em (.pressKeyCombination ["Control", "Tab"]), [.pressKeyCombination ["Control", "Tab"]])
  | .browserPrevTab => (em (.pressKeyCombination ["Control", "Shift", "Tab"]), [.pressKeyCombination ["Control", "Shift", "Tab"]])
  | .browserFind => (em (.pressKeyCombination ["Control", "f"]), [.pressKeyCombination ["Control", "f"]])
  | .switchMode _ => (Except.ok (), [])
  | .noOp => (Except.ok (), [])

/-- The single emitter call each executor branch makes, if any (summary of
the same dispatch, used to state error propagation).  `none` for the
branches that call nothing (`ScreenRecording`, `WindowSnap`, `WindowCycle`,
`SwitchMode`, `NoOp`); the three media branches do make a `press_key`
call. -/
def emitterCallOf : Action → Option EmitterCall
  | .volumeUp amount => some (.setVolume amount)
  | .volumeDown amount => some (.setVolume (-amount))
  | .brightnessUp amount => some (.setBrightness amount)
  | .brightnessDown amount => some (.setBrightness (-amount))
  | .screenshot => some .takeScreenshot
  | .screenRecording _ => none
  | .appLauncher => some .openAppLauncher
  | .appPrevious => some .switchToPreviousApp
  | .appNext => some .switchToNextApp
  | .appSwitcher => some .showAppSwitcher
  | .windowSnap _ => none
  | .windowCycle => none
  | .mouseMove dx dy => some (.moveCursor dx dy)
  | .mousePosition x y => some (.setCursorPosition x y)
  | .mouseClick => some .leftClick
  | .mouseRightClick => some .rightClick
  | .mouseMiddleClick => some .middleClick
  | .mouseDoubleClick => some .doubleClick
  | .mouseScroll v h => some (.mouseScrollCall v h)
  | .keyPress key => some (.pressKey key)
  | .keyCombo keys => some (.pressKeyCombination keys)
  | .textInput text => some (.typeText text)
  | .mediaPlayPause => some .playPauseMedia
  | .mediaNext => some (.pressKey "MediaNext")
  | .mediaPrevious => some (.pressKey "MediaPrevious")
  | .mediaStop => some (.pressKey "MediaStop")
  | .browserBack => some (.pressKeyCombination ["Alt", "Left"])
  | .browserForward => some (.pressKeyCombination ["Alt", "Right"])
  | .browserReload => some (.pressKey "F5")
  | .browserNewTab => some (.pressKeyCombination ["Control", "t"])
  | .browserCloseTab => some (.pressKeyCombination ["Control", "w"])
  | .browserNextTab => some (.pressKeyCombination ["Control", "Tab"])
  | .browserPrevTab => some (.pressKeyCombination ["Control", "Shift", "Tab"])
  | .browserFind => some (.pressKeyCombination ["Control", "f"])
  | .switchMode _ => none
  | .noOp => none

/-! ## actions/system.rs: set_volume -/

/-- `set_volume(level)` (actions/system.rs; the macOS, Windows and Linux
bodies share the clamp): `clamped = level.max(0).min(100)` and the OS is
told to set the output volume to the ABSOLUTE value `clamped` (macOS:
`osascript -e "set volume output volume {clamped}"`).  The current volume is
never read: this is not a relative adjustment.  Returns the absolute level
emitted to the OS. -/
def set_volume_level (level : Int) : Int :=
  min (max level 0) 100

/-- System volume after `execute_action` runs a volume action, given the
current volume `current`: the executor passes `amount` (`VolumeUp`) or
`-amount` (`VolumeDown`) as the `level` argument of `set_volume`
(actions/executor.rs lines 13-18), and `set_volume` sets the clamped
absolute level. -/
def volumeAfterAction (current : Int) : Action → Int
  | .volumeUp amount => set_volume_level amount
  | .volumeDown amount => set_volume_level (-amount)
  | _ => current

/-! ## actions/mouse.rs: the pointer emitter layer

Effects at the OS boundary are recorded as `OsCall` values; the Linux
backend's external command outcome is abstracted by an environment `os`. -/

/-- Target platform selected by `cfg(target_os)`. -/
inductive Platform where
  | macos
  | windows
  | linux
deriving DecidableEq, Repr

/-- An OS-level interaction performed by the mouse emitter backends. -/
inductive OsCall where
  | cgMouseEvent (kind : String) (x y : Int)
  | winMouseEvent (flags : String) (dx dy : Int)
  | runCommand (program : String) (args : List String)
deriving DecidableEq, Repr

/-- Environment giving each OS call its outcome (command spawn result for
the Linux backend; the macOS and Windows backends here do not fail). -/
def OsEnv : Type := OsCall → Except String Unit

/-- `move_cursor(dx, dy)` (actions/mouse.rs lines 370-379 dispatching to the
per-platform bodies at 174-181, 249-258 and 305-314).  Every backend begins
with `if dx == 0 && dy == 0 { return Ok(()); }`.  The macOS body is a stub
that returns `Ok` without any OS call even for non-zero deltas; Windows
issues a `MOUSEEVENTF_MOVE`; Linux runs `xdotool mousemove --relative`. -/
def move_cursor (p : Platform) (os : OsEnv) (dx dy : Int) :
    Except String Unit × List OsCall :=
  if dx = 0 ∧ dy = 0 then
    (Except.ok (), [])
  else
    match p with
    | .macos => (Except.ok (), [])
    | .windows => (Except.ok (), [OsCall.winMouseEvent "MOUSEEVENTF_MOVE" dx dy])
    | .linux =>
        let c := OsCall.runCommand "xdotool"
          ["mousemove", "--relative", toString dx, toString dy]
        (os c, [c])

/-- `scroll(vertical, horizontal)` (actions/mouse.rs lines 392-397):
`if vertical == 0 && horizontal == 0 { return Ok(()); }` and otherwise
delegate to `crate::scroll::scroll`, abstracted here as `scrollImpl`. -/
def mouse_scroll (scrollImpl : Int → Int → Except String Unit × List OsCall)
    (vertical horizontal : Int) : Except String Unit × List OsCall :=
  if vertical = 0 ∧ horizontal = 0 then
    (Except.ok (), [])
  else
    scrollImpl vertical horizontal

/-! ## gamepad_manager.rs: delete_profile -/

/-- A request issued to the profile store (db.rs `DatabaseService`). -/
inductive StoreOp where
  | deleteProfileOp (name : String)
  | saveProfileOp (name : String)
deriving DecidableEq, Repr

/-- The profile surface state of `GamepadManager`: the in-memory profiles
cache (`HashMap<String, GamepadProfile>` as an association list) and whether
a database service has been attached. -/
structure ProfilesState where
  profiles : List (String × GamepadProfile)
  dbPresent : Bool
deriving DecidableEq, Repr

/-- `GamepadManager::delete_profile` (gamepad_manager.rs lines 342-365): the
`"Default"` guard returns the error before touching anything; otherwise the
name is removed from the cache and, when a database is attached, a delete
request is issued to the store (db.rs `delete_gamepad_profile`, `DELETE FROM
gamepad_profiles WHERE name = ?`; a store error is logged and swallowed, so
the function still returns `Ok`).  Returns (result, new cache state, store
requests issued). -/
def delete_profile (st : ProfilesState) (profile_name : String) :
    Except String Unit × ProfilesState × List StoreOp :=
  if profile_name = "Default" then
    (Except.error "Cannot delete default profile", st, [])
  else
    (Except.ok (),
     { st with profiles := st.profiles.filter (fun e => e.1 ≠ profile_name) },
     if st.dbPresent then [StoreOp.deleteProfileOp profile_name] else [])

/-! ## Helper lemmas -/

/-- Truncation toward zero of an integer value is that integer. -/
lemma rustTruncToInt_intCast (n : ℤ) : rustTruncToInt (n : ℚ) = n := by
  unfold rustTruncToInt
  split_ifs with h
  · exact Int.floor_intCast n
  · exact Int.ceil_intCast n

/-- Computation rule: truncation of a rational shown equal to an integer. -/
lemma rustTruncToInt_eq_intCast {q : ℚ} {n : ℤ} (h : q = (n : ℚ)) :
    rustTruncToInt q = n := by
  rw [h, rustTruncToInt_intCast]

/-- Truncation toward zero of a rational of magnitude at most 1/2 is 0. -/
lemma rustTruncToInt_eq_zero {q : ℚ} (h : |q| ≤ 1/2) : rustTruncToInt q = 0 := by
  obtain ⟨h1, h2⟩ := abs_le.mp h
  unfold rustTruncToInt
  split_ifs with h0
  · rw [Int.floor_eq_zero_iff]
    exact ⟨h0, lt_of_le_of_lt h2 (by norm_num)⟩
  · rw [Int.ceil_eq_zero_iff]
    exact ⟨lt_of_lt_of_le (by norm_num) h1, le_of_lt (lt_of_not_le h0)⟩

/-- A lookup by one key is unaffected by removing entries with a different
key. -/
lemma lookupKey_removeKey_ne (l : List (String × KeyBinding)) (kp kb : String)
    (h : kp ≠ kb) : lookupKey (removeKey l kb) kp = lookupKey l kp := by
  induction l with
  | nil => rfl
  | cons x xs ih =>
      by_cases hx : x.1 = kb
      · have hxp : ¬(x.1 = kp) := fun hc => h (hc.symm.trans hx)
        simp [removeKey, lookupKey, hx, hxp, ih, Ne.symm h]
      · by_cases hxp : x.1 = kp
        · simp [removeKey, lookupKey, hx, hxp, h]
        · simp [removeKey, lookupKey, hx, hxp, ih]

/-- Helper for stating that the `transitioning` flag is purely
informational: replace the flag and nothing else. -/
def withTransitioning (mgr : GamepadModeManager) (flag : Bool) : GamepadModeManager :=
  { mgr with state := { mgr.state with transitioning := flag } }

/-! ## Claim theorems -/

/-- Concrete data for claim C1: a registry holding exactly one binding for
South, listening for a LongHold. -/
def c1LongHoldBinding : KeyBinding :=
  { pattern := .singleButton { index := .south } .longHold, action := .screenshot,
    priority := 50, enabled := true, description := none, mode := .normal }

def c1Registry : KeyBindingRegistry :=
  KeyBindingRegistry.new.add_binding c1LongHoldBinding

/-- C1, counterexample.  Consider a South press held for 600 ms in Normal
mode with no shoulder button held (rising edge at t = 0, falling edge at
t = 600); this iteration is outside the mode-switch skip of lines 567-573.
Per the claim the classification must be LongHold (600 ≥ 500) — in
particular not Tap (600 > 150) — and the binding lookup must use that
classification, which would find the LongHold binding.  The input loop
instead performs its lookup on the rising edge with `InputType::Tap`,
unconditionally, and finds nothing. -/
theorem C1_counterexample :
    specClassifyDuration InputTiming.default 600 = InputType.longHold ∧
    specClassifyDuration InputTiming.default 600 ≠ InputType.tap ∧
    c1Registry.get_binding (.singleButton { index := .south } .longHold) =
      some c1LongHoldBinding ∧
    (processButtonTick c1Registry .normal false false .south true false).1 = none := by
  decide

/-- C1, amended: the input loop performs no duration-based classification at
all.  Outside the mode-switch skip (in a non-Normal mode with RB or LB held,
the North button is skipped entirely: no lookup and no state update), every
rising edge looks up `SingleButton { button, Tap }` regardless of how long
the button will be (or has been) held; inside the skip and on every
non-rising-edge tick nothing is looked up; the thresholds of 150 ms and
500 ms exist in `InputTiming::default` but are never consulted by the
loop. -/
theorem C1_amended :
    ∀ (reg : KeyBindingRegistry) (mode : GamepadMode) (rb lb : Bool)
      (btn : GamepadButtonIndex) (was : Bool),
    (¬(mode ≠ GamepadMode.normal ∧
        ((rb ∧ btn = GamepadButtonIndex.north) ∨ (lb ∧ btn = GamepadButtonIndex.north))) →
      (processButtonTick reg mode rb lb btn true false).1 =
        reg.get_binding (.singleButton { index := btn } .tap) ∧
      (processButtonTick reg mode rb lb btn true false).2 = true) ∧
    ((mode ≠ GamepadMode.normal ∧
        ((rb ∧ btn = GamepadButtonIndex.north) ∨ (lb ∧ btn = GamepadButtonIndex.north))) →
      ∀ pressed oldState,
        (processButtonTick reg mode rb lb btn pressed oldState).1 = none ∧
        (processButtonTick reg mode rb lb btn pressed oldState).2 = oldState) ∧
    (processButtonTick reg mode rb lb btn true true).1 = none ∧
    (processButtonTick reg mode rb lb btn false was).1 = none ∧
    InputTiming.default.tap_threshold_ms = 150 ∧
    InputTiming.default.long_hold_threshold_ms = 500 := by
  intro reg mode rb lb btn was
  refine ⟨?_, ?_, ?_, ?_, rfl, rfl⟩
  · intro h
    simp [processButtonTick, h]
  · intro h pressed oldState
    simp [processButtonTick, h]
  · unfold processButtonTick
    split_ifs <;> simp_all
  · unfold processButtonTick
    split_ifs <;> simp_all

/-- Concrete data for the C1 witness: a Normal-mode registry binding
South/Tap to a mouse click, as the seeded Normal registry does. -/
def c1TapBinding : KeyBinding :=
  { pattern := .singleButton { index := .south } .tap, action := .mouseClick,
    priority := 50, enabled := true, description := none, mode := .normal }

def c1TapRegistry : KeyBindingRegistry := KeyBindingRegistry.new.add_binding c1TapBinding

/-- C1, witness: instantiates the amended theorem at concrete inputs on both
sides of the skip — a South rising edge in Normal mode finds the Tap
binding, while a North rising edge in Motion mode with RB held is skipped
and finds nothing. -/
theorem C1_witness :
    (processButtonTick c1TapRegistry .normal false false .south true false).1 =
      some c1TapBinding ∧
    (processButtonTick c1TapRegistry .motion true false .north true false).1 = none := by
  have h1 := ((C1_amended c1TapRegistry .normal false false .south false).1 (by decide)).1
  have h2 := ((C1_amended c1TapRegistry .motion true false .north false).2.1
    (by decide) true false).1
  exact ⟨h1.trans (by decide), h2⟩

/-- C2: `switch_mode(m)` returns true iff `m` differs from the current mode
and at least 50 ms (the `min_switch_interval` set by `new`) have elapsed
since the last accepted switch; on success it writes previous, current,
activated_at, last_switch_time and the transitioning flag.  The hypothesis
`last_switch_time ≤ now` is the clock monotonicity under which the `Nat`
model of the source's `u64` subtraction is exact. -/
theorem C2_switch_mode_spec (mgr : GamepadModeManager) (now : Nat) (m : GamepadMode)
    (hmin : mgr.min_switch_interval = 50) (hmono : mgr.last_switch_time ≤ now) :
    ((mgr.switch_mode now m).1 = true ↔
      m ≠ mgr.state.current ∧ 50 ≤ now - mgr.last_switch_time) ∧
    ((mgr.switch_mode now m).1 = true →
      (mgr.switch_mode now m).2.state.previous = mgr.state.current ∧
      (mgr.switch_mode now m).2.state.current = m ∧
      (mgr.switch_mode now m).2.state.activated_at = now ∧
      (mgr.switch_mode now m).2.last_switch_time = now ∧
      (mgr.switch_mode now m).2.state.transitioning = true) := by
  unfold GamepadModeManager.switch_mode
  rw [hmin]
  split_ifs with h1 h2
  · refine ⟨⟨fun h => absurd h (by simp), fun ⟨_, hge⟩ => absurd hge (by omega)⟩, ?_⟩
    intro h; exact absurd h (by simp)
  · refine ⟨⟨fun h => absurd h (by simp), fun ⟨hne, _⟩ => absurd h2 hne⟩, ?_⟩
    intro h; exact absurd h (by simp)
  · exact ⟨⟨fun _ => ⟨h2, by omega⟩, fun _ => rfl⟩,
      fun _ => ⟨rfl, rfl, rfl, rfl, rfl⟩⟩

/-- C2, witness: the fresh manager (current = Normal, last switch at 0)
accepts a switch to Motion at t = 100 and records it. -/
theorem C2_witness :
    (GamepadModeManager.new.switch_mode 100 .motion).1 = true ∧
    (GamepadModeManager.new.switch_mode 100 .motion).2.state.current = .motion ∧
    (GamepadModeManager.new.switch_mode 100 .motion).2.state.previous = .normal ∧
    (GamepadModeManager.new.switch_mode 100 .motion).2.last_switch_time = 100 := by
  have h := C2_switch_mode_spec GamepadModeManager.new 100 .motion rfl (by decide)
  have hb : (GamepadModeManager.new.switch_mode 100 .motion).1 = true :=
    h.1.mpr ⟨by decide, by decide⟩
  obtain ⟨hprev, hcur, _, hlast, _⟩ := h.2 hb
  exact ⟨hb, hcur, hprev, hlast⟩

/-- Concrete data for claim C8: a manager that has just performed a
successful switch, so its transitioning flag is set. -/
def c8Mgr : GamepadModeManager := (GamepadModeManager.new.switch_mode 100 .motion).2

/-- C8, counterexample.  After a successful switch the flag is true; the
claim says the next successful `switch_mode` or `reset_to_normal` clears it
(sets it to false).  Both a subsequent successful `switch_mode` (to Hotkey
at t = 200) and `reset_to_normal` (at t = 200) leave the flag true: nothing
in the code ever writes `transitioning = false` after initialisation. -/
theorem C8_counterexample :
    c8Mgr.state.transitioning = true ∧
    (c8Mgr.reset_to_normal 200).state.current = GamepadMode.normal ∧
    (c8Mgr.reset_to_normal 200).state.transitioning = true ∧
    (c8Mgr.switch_mode 200 .hotkey).1 = true ∧
    (c8Mgr.switch_mode 200 .hotkey).2.state.transitioning = true := by
  decide

/-- C8, amended: after every successful `switch_mode` the transitioning flag
is true, and the flag is never reset to false — any `switch_mode` call and
any `reset_to_normal` call (which merely delegates to `switch_mode(Normal)`)
preserve a set flag.  The flag is purely informational: the result of
`switch_mode` and every other state field are independent of its value. -/
theorem C8_amended :
    (∀ (mgr : GamepadModeManager) (now : Nat) (m : GamepadMode),
       (mgr.switch_mode now m).1 = true →
       (mgr.switch_mode now m).2.state.transitioning = true) ∧
    (∀ (mgr : GamepadModeManager) (now : Nat) (m : GamepadMode),
       mgr.state.transitioning = true →
       (mgr.switch_mode now m).2.state.transitioning = true) ∧
    (∀ (mgr : GamepadModeManager) (now : Nat),
       mgr.state.transitioning = true →
       (mgr.reset_to_normal now).state.transitioning = true) ∧
    (∀ (mgr : GamepadModeManager) (now : Nat) (m : GamepadMode) (flag : Bool),
       ((withTransitioning mgr flag).switch_mode now m).1 = (mgr.switch_mode now m).1 ∧
       ((withTransitioning mgr flag).switch_mode now m).2.state.current =
         (mgr.switch_mode now m).2.state.current ∧
       ((withTransitioning mgr flag).switch_mode now m).2.state.previous =
         (mgr.switch_mode now m).2.state.previous ∧
       ((withTransitioning mgr flag).switch_mode now m).2.state.activated_at =
         (mgr.switch_mode now m).2.state.activated_at ∧
       ((withTransitioning mgr flag).switch_mode now m).2.last_switch_time =
         (mgr.switch_mode now m).2.last_switch_time) := by
  refine ⟨?_, ?_, ?_, ?_⟩
  · intro mgr now m h
    unfold GamepadModeManager.switch_mode at *
    split_ifs at h ⊢ <;> simp_all
  · intro mgr now m h
    unfold GamepadModeManager.switch_mode
    split_ifs <;> simp_all
  · intro mgr now h
    unfold GamepadModeManager.reset_to_normal GamepadModeManager.switch_mode
    split_ifs <;> simp_all
  · intro mgr now m flag
    unfold GamepadModeManager.switch_mode withTransitioning
    split_ifs <;> simp_all

/-- C8, witness: instantiates the amended theorem at the concrete manager
`c8Mgr` (flag set), t = 200, target Hotkey. -/
theorem C8_witness :
    (c8Mgr.switch_mode 200 .hotkey).2.state.transitioning = true ∧
    (c8Mgr.reset_to_normal 200).state.transitioning = true := by
  have h1 := C8_amended.2.1 c8Mgr 200 .hotkey (by decide)
  have h2 := C8_amended.2.2.1 c8Mgr 200 (by decide)
  exact ⟨h1, h2⟩

/-- C3, counterexample.  The seeded (and hence active) Default profile has
`dead_zone = 0.1`, which is non-zero, so per the claim the axis value 0.1
lies inside the dead-zone and must contribute exactly 0.  The translation
only applies the fixed 0.05 floor, never reads the profile, and scales the
value: a left-stick x of 0.1 moves the cursor by 1 pixel, and a right-stick
y of 0.1 scrolls vertically by 1 unit. -/
theorem C3_counterexample :
    GamepadProfile.default.dead_zone = 1/10 ∧
    ¬(GamepadProfile.default.dead_zone = 0) ∧
    |(1/10 : ℚ)| ≤ GamepadProfile.default.dead_zone ∧
    tickCursorDelta (1/10) 0 = some (1, 0) ∧
    tickScrollDelta 0 (1/10) = some (1, 0) := by
  have hg : (1:ℚ)/20 < |(1:ℚ)/10| := by
    rw [abs_of_pos (by norm_num)]; norm_num
  refine ⟨rfl, by norm_num [GamepadProfile.default], ?_, ?_, ?_⟩
  · rw [abs_of_pos (by norm_num)]; norm_num [GamepadProfile.default]
  · unfold tickCursorDelta
    rw [if_pos (Or.inl hg),
      rustTruncToInt_eq_intCast (show (1:ℚ)/10 * 10 = ((1:ℤ) : ℚ) by norm_num),
      rustTruncToInt_eq_intCast (show (0:ℚ) * 10 = ((0:ℤ) : ℚ) by norm_num)]
    norm_num
  · unfold tickScrollDelta
    rw [if_pos (Or.inr hg),
      rustTruncToInt_eq_intCast (show (1:ℚ)/10 * 10 = ((1:ℤ) : ℚ) by norm_num),
      rustTruncToInt_eq_intCast (show (0:ℚ) * 10 = ((0:ℤ) : ℚ) by norm_num)]

/-- C3, amended: the dead-zone the translation applies is the fixed 0.05
floor — the profile's `dead_zone` is not consulted.  For every axis value
`v` with `|v| ≤ 0.05` the per-tick cursor delta and scroll delta contributed
by that axis are exactly 0: when both axes are inside the floor nothing is
emitted at all, and when the other axis exceeds it, `v · 10` truncates to
integer 0. -/
theorem C3_amended (sx sy : ℚ) :
    (|sx| ≤ 1/20 ∧ |sy| ≤ 1/20 →
      tickCursorDelta sx sy = none ∧ tickScrollDelta sx sy = none) ∧
    (|sx| ≤ 1/20 →
      (∀ d, tickCursorDelta sx sy = some d → d.1 = 0) ∧
      (∀ d, tickScrollDelta sx sy = some d → d.2 = 0)) ∧
    (|sy| ≤ 1/20 →
      (∀ d, tickCursorDelta sx sy = some d → d.2 = 0) ∧
      (∀ d, tickScrollDelta sx sy = some d → d.1 = 0)) := by
  have hx10 : |sx| ≤ 1/20 → |sx * 10| ≤ 1/2 := by
    intro h
    rw [abs_mul]
    calc |sx| * |(10 : ℚ)| ≤ (1/20) * 10 := by
          apply mul_le_mul h (by norm_num) (by norm_num) (by norm_num)
      _ = 1/2 := by norm_num
  have hy10 : |sy| ≤ 1/20 → |sy * 10| ≤ 1/2 := by
    intro h
    rw [abs_mul]
    calc |sy| * |(10 : ℚ)| ≤ (1/20) * 10 := by
          apply mul_le_mul h (by norm_num) (by norm_num) (by norm_num)
      _ = 1/2 := by norm_num
  refine ⟨?_, ?_, ?_⟩
  · rintro ⟨hx, hy⟩
    have hguard : ¬((1:ℚ)/20 < |sx| ∨ (1:ℚ)/20 < |sy|) :=
      not_or.mpr ⟨not_lt.mpr hx, not_lt.mpr hy⟩
    exact ⟨by unfold tickCursorDelta; rw [if_neg hguard],
           by unfold tickScrollDelta; rw [if_neg hguard]⟩
  · intro hx
    constructor
    · intro d hd
      unfold tickCursorDelta at hd
      split_ifs at hd
      · injection hd with hd2
        rw [← hd2]
        exact rustTruncToInt_eq_zero (hx10 hx)
    · intro d hd
      unfold tickScrollDelta at hd
      split_ifs at hd
      · injection hd with hd2
        rw [← hd2]
        exact rustTruncToInt_eq_zero (hx10 hx)
  · intro hy
    constructor
    · intro d hd
      unfold tickCursorDelta at hd
      split_ifs at hd
      · injection hd with hd2
        rw [← hd2]
        simp [rustTruncToInt_eq_zero (hy10 hy)]
    · intro d hd
      unfold tickScrollDelta at hd
      split_ifs at hd
      · injection hd with hd2
        rw [← hd2]
        exact rustTruncToInt_eq_zero (hy10 hy)

/-- C3, witness: left stick at (0.04, 1.0) — x inside the 0.05 floor, y well
outside — emits a move whose x component is 0 (and y component −10). -/
theorem C3_witness :
    |(1/25 : ℚ)| ≤ 1/20 ∧
    (∀ d, tickCursorDelta (1/25) 1 = some d → d.1 = 0) ∧
    tickCursorDelta (1/25) 1 = some (0, -10) := by
  have habs : |(1/25 : ℚ)| ≤ 1/20 := by
    rw [abs_of_pos (by norm_num)]; norm_num
  refine ⟨habs, ((C3_amended (1/25) 1).2.1 habs).1, ?_⟩
  unfold tickCursorDelta
  rw [if_pos (Or.inr (by rw [abs_one]; norm_num)),
    rustTruncToInt_eq_zero (by rw [abs_of_pos (by norm_num)]; norm_num),
    rustTruncToInt_eq_intCast (show (1:ℚ) * 10 = ((10:ℤ) : ℚ) by norm_num)]

/-- Concrete data for claim C4: the Motion-switch chord over {RB, North},
written in its two orders. -/
def c4ChordRBNorth : InputPattern := .chord [{ index := .rb }, { index := .north }]

def c4ChordNorthRB : InputPattern := .chord [{ index := .north }, { index := .rb }]

def c4Binding : KeyBinding :=
  { pattern := c4ChordRBNorth, action := .switchMode .motion, priority := 50,
    enabled := true, description := none, mode := .normal }

def c4TapBinding : KeyBinding :=
  { pattern := .singleButton { index := .south } .tap, action := .mouseClick,
    priority := 50, enabled := true, description := none, mode := .normal }

/-- C4, counterexample.  `pattern_key` is the derived `Debug` rendering of
the pattern; a `Chord`'s button `Vec` is rendered in its listed order and is
never sorted, so the two orders of the chord {RB, North} produce different
keys, and an `add_binding` with one followed by `get_binding` or
`remove_binding` with the other does NOT find the binding (the claim says it
does). -/
theorem C4_counterexample :
    pattern_key c4ChordRBNorth ≠ pattern_key c4ChordNorthRB ∧
    (KeyBindingRegistry.new.add_binding c4Binding).get_binding c4ChordNorthRB = none ∧
    ((KeyBindingRegistry.new.add_binding c4Binding).remove_binding c4ChordNorthRB).1 =
      none ∧
    (KeyBindingRegistry.new.add_binding c4Binding).get_binding c4ChordRBNorth =
      some c4Binding := by
  refine ⟨by decide, by decide, by decide, by decide⟩

/-- C4, amended: registry keys are the `Debug` rendering of the pattern, so
patterns with the same variant and the same ordered component parts — for
`Chord`, the same buttons in the same listed order, with no sorting by
button index — map to the same registry entry; a later `add_binding` with an
equal pattern overwrites the earlier binding, an `add_binding` leaves
entries under any other key untouched, and the two listed orders of the
chord {RB, North} are distinct keys whose bindings do not find each
other. -/
theorem C4_amended :
    (∀ p q : InputPattern, p = q → pattern_key p = pattern_key q) ∧
    (∀ (reg : KeyBindingRegistry) (b : KeyBinding),
        (reg.add_binding b).get_binding b.pattern = some b) ∧
    (∀ (reg : KeyBindingRegistry) (b : KeyBinding) (p : InputPattern),
        pattern_key p ≠ pattern_key b.pattern →
        (reg.add_binding b).get_binding p = reg.get_binding p) ∧
    pattern_key c4ChordRBNorth ≠ pattern_key c4ChordNorthRB := by
  refine ⟨fun p q h => by rw [h], ?_, ?_, by decide⟩
  · intro reg b
    simp [KeyBindingRegistry.add_binding, KeyBindingRegistry.get_binding, lookupKey]
  · intro reg b p h
    have hne : ¬(pattern_key b.pattern = pattern_key p) := fun hc => h hc.symm
    simp only [KeyBindingRegistry.add_binding, KeyBindingRegistry.get_binding, lookupKey,
      if_neg hne]
    exact lookupKey_removeKey_ne reg.bindings (pattern_key p) (pattern_key b.pattern) h

/-- C4, witness: instantiates the amended theorem on a concrete registry —
adding a South/Tap binding and then re-adding an equal-pattern binding
overwrites it, and does not disturb the chord entry. -/
theorem C4_witness :
    ((KeyBindingRegistry.new.add_binding c4Binding).add_binding
        c4TapBinding).get_binding (.singleButton { index := .south } .tap) =
      some c4TapBinding ∧
    ((KeyBindingRegistry.new.add_binding c4Binding).add_binding
        c4TapBinding).get_binding c4ChordRBNorth = some c4Binding := by
  refine ⟨C4_amended.2.1 _ c4TapBinding, ?_⟩
  have h := C4_amended.2.2.1 (KeyBindingRegistry.new.add_binding c4Binding)
    c4TapBinding c4ChordRBNorth (by decide)
  rw [h]
  exact C4_amended.2.1 KeyBindingRegistry.new c4Binding

/-- C5: evaluation of the code at the failing input.  `set_volume(level)`
clamps `level` to 0..=100 and sets the ABSOLUTE system volume to it; the
executor passes `amount` (VolumeUp) and `-amount` (VolumeDown) as that
level.  With the system volume currently 50, `VolumeUp{10}` sets the volume
to 10 (the claim requires 60) and `VolumeDown{10}` sets it to 0, i.e. mutes
(the claim — and the `Action` doc comments "Increase/Decrease volume by
percentage" — require 40). -/
theorem C5_code_bug :
    volumeAfterAction 50 (.volumeUp 10) = 10 ∧
    volumeAfterAction 50 (.volumeDown 10) = 0 ∧
    set_volume_level (-10) = 0 ∧
    set_volume_level 110 = 100 ∧
    (∀ em : Emitter,
      (execute_action em (.volumeUp 10)).2 = [.setVolume 10] ∧
      (execute_action em (.volumeDown 10)).2 = [.setVolume (-10)]) := by
  exact ⟨by decide, by decide, by decide, by decide, fun em => ⟨rfl, rfl⟩⟩

/-- C6: with both components zero, `move_cursor(0,0)` and the mouse-layer
`scroll(0,0)` return success immediately with an empty OS-effect list, on
every platform backend and under every OS environment; and the executor
routes `MouseMove{0,0}` / `MouseScroll{0,0}` to exactly those emitter
calls. -/
theorem C6_zero_is_noop :
    (∀ (p : Platform) (os : OsEnv), move_cursor p os 0 0 = (Except.ok (), [])) ∧
    (∀ scrollImpl, mouse_scroll scrollImpl 0 0 = (Except.ok (), [])) ∧
    (∀ em : Emitter,
      (execute_action em (.mouseMove 0 0)).2 = [.moveCursor 0 0] ∧
      (execute_action em (.mouseScroll 0 0)).2 = [.mouseScrollCall 0 0]) := by
  refine ⟨?_, ?_, fun em => ⟨rfl, rfl⟩⟩
  · intro p os
    simp [move_cursor]
  · intro scrollImpl
    simp [mouse_scroll]

/-- An emitter environment in which every call fails. -/
def failingEmitter : Emitter := fun _ => Except.error "simulated emitter failure"

/-- C7, counterexample.  Under an emitter whose every call fails, the three
plain media-key branches still return `Ok(())`: they invoke
`press_key(...)` but discard its result via `.ok()`, so the failure is NOT
propagated as the claim requires. -/
theorem C7_counterexample :
    execute_action failingEmitter .mediaNext = (Except.ok (), [.pressKey "MediaNext"]) ∧
    execute_action failingEmitter .mediaPrevious =
      (Except.ok (), [.pressKey "MediaPrevious"]) ∧
    execute_action failingEmitter .mediaStop = (Except.ok (), [.pressKey "MediaStop"]) ∧
    failingEmitter (.pressKey "MediaNext") = Except.error "simulated emitter failure" :=
  ⟨rfl, rfl, rfl, rfl⟩

/-- C7, amended: for every action other than `MediaNext`, `MediaPrevious`
and `MediaStop`, `execute_action` returns exactly the underlying emitter
call's result — a failure is propagated with its error unchanged, and an
error is returned only when the underlying call failed (branches with no
emitter call return success).  The three plain media-key actions discard the
emitter result and always return success. -/
theorem C7_amended :
    (∀ (em : Emitter) (a : Action),
        a ≠ .mediaNext → a ≠ .mediaPrevious → a ≠ .mediaStop →
        (execute_action em a).1 = (emitterCallOf a).elim (Except.ok ()) em) ∧
    (∀ em : Emitter,
        (execute_action em .mediaNext).1 = Except.ok () ∧
        (execute_action em .mediaPrevious).1 = Except.ok () ∧
        (execute_action em .mediaStop).1 = Except.ok ()) := by
  constructor
  · intro em a h1 h2 h3
    cases a <;> first | rfl | simp_all
  · intro em
    exact ⟨rfl, rfl, rfl⟩

/-- C7, witness: instantiates the amended theorem at `Screenshot` under the
all-failing emitter — the failure comes back unchanged. -/
theorem C7_witness :
    (execute_action failingEmitter .screenshot).1 =
      Except.error "simulated emitter failure" := by
  have h := C7_amended.1 failingEmitter .screenshot (by decide) (by decide) (by decide)
  simpa [emitterCallOf, failingEmitter] using h

/-- C9: `delete_profile("Default")` fails with the protected-profile error
and leaves both the cache and the store untouched; for any other name it
returns success, the cache no longer holds the name, and (when a database is
attached) exactly one delete request for that name is issued to the
store. -/
theorem C9_delete_profile (st : ProfilesState) (name : String) :
    (name = "Default" →
      delete_profile st name = (Except.error "Cannot delete default profile", st, [])) ∧
    (name ≠ "Default" →
      (delete_profile st name).1 = Except.ok () ∧
      (∀ e ∈ (delete_profile st name).2.1.profiles, e.1 ≠ name) ∧
      (delete_profile st name).2.2 =
        (if st.dbPresent then [StoreOp.deleteProfileOp name] else [])) := by
  constructor
  · intro h
    simp [delete_profile, h]
  · intro h
    refine ⟨by simp [delete_profile, h], ?_, by simp [delete_profile, h]⟩
    intro e he
    simp only [delete_profile, if_neg h, List.mem_filter] at he
    simpa using he.2

/-- Concrete cache state for the C9 witness. -/
def c9State : ProfilesState :=
  { profiles := [("Default", GamepadProfile.default), ("Work", GamepadProfile.default)],
    dbPresent := true }

/-- C9, witness: deleting "Work" succeeds, clears it from the cache, and
issues the store delete; deleting "Default" fails and changes nothing. -/
theorem C9_witness :
    (delete_profile c9State "Work").1 = Except.ok () ∧
    (∀ e ∈ (delete_profile c9State "Work").2.1.profiles, e.1 ≠ "Work") ∧
    (delete_profile c9State "Work").2.2 = [StoreOp.deleteProfileOp "Work"] ∧
    delete_profile c9State "Default" =
      (Except.error "Cannot delete default profile", c9State, []) := by
  have h := (C9_delete_profile c9State "Work").2 (by decide)
  have hd := (C9_delete_profile c9State "Default").1 rfl
  exact ⟨h.1, h.2.1, by simpa [c9State] using h.2.2, hd⟩

/-- C10: `execute_action` is a total function over the closed `Action` sum —
every variant is handled by the single dispatch, each producing either an
immediate success or the result of its one emitter call — and the variants
`NoOp`, `SwitchMode`, `WindowSnap`, `WindowCycle` and `ScreenRecording`
always return success with no emitter call at all; in particular a
`SwitchMode` action reaching the executor is a harmless success, not an
error and not a mode change. -/
theorem C10_no_emission_variants :
    ∀ em : Emitter,
    execute_action em .noOp = (Except.ok (), []) ∧
    (∀ m, execute_action em (.switchMode m) = (Except.ok (), [])) ∧
    (∀ pos, execute_action em (.windowSnap pos) = (Except.ok (), [])) ∧
    execute_action em .windowCycle = (Except.ok (), []) ∧
    (∀ s, execute_action em (.screenRecording s) = (Except.ok (), [])) ∧
    (∀ a : Action,
      (execute_action em a).1 = Except.ok () ∨ ∃ c, (execute_action em a).1 = em c) := by
  intro em
  refine ⟨rfl, fun m => rfl, fun pos => rfl, rfl, fun s => rfl, fun a => ?_⟩
  cases a <;> first | exact Or.inl rfl | exact Or.inr ⟨_, rfl⟩

end CopyClip
